import Mathlib

/-!
Verification of the question-answering service in `api/index.py`
(single-endpoint FastAPI app: bearer-token auth, static keyword overrides,
SQLite-backed substring search over a seeded knowledge base).

The embedding is shallow: strings are `String` manipulated through their
character lists, the SQLite table is a `List Row` in rowid order, and the
effectful parts (connection retry, try/except control flow) are modelled by
explicit failure parameters.
-/

set_option autoImplicit false

namespace VirtualTAA

/-- A row of the `knowledge_base` table: `(keyword, answer, url, snippet)`.
The `id` and `created_at` columns are never read by the service and are
omitted. -/
structure Row where
  keyword : String
  answer : String
  url : String
  snippet : String
deriving Repr, DecidableEq, Inhabited

/-- A link object of the response: `{"url": ..., "text": ...}`. -/
structure Link where
  url : String
  text : String
deriving Repr, DecidableEq, Inhabited

/-- The success response body `{"answer": ..., "links": [...]}`
(`AnswerResponse` in the source). -/
structure AnswerResult where
  answer : String
  links : List Link
deriving Repr, DecidableEq, Inhabited

/-- An `HTTPException`: status code, detail message and extra headers. -/
structure HTTPError where
  status : Nat
  detail : String
  headers : List (String × String)
deriving Repr, DecidableEq, Inhabited

/-! ### Character-level string operations

Python string primitives used by the service, modelled on `List Char`. -/

/-- `leadsWith n h` is true iff the character list `h` starts with `n`. -/
def leadsWith : List Char → List Char → Bool
  | [], _ => true
  | _ :: _, [] => false
  | a :: as, b :: bs => a == b && leadsWith as bs

/-- `occursIn n h` is true iff `n` occurs as a contiguous sub-list of `h`.
Models the Python substring operator `in`. -/
def occursIn (needle : List Char) : List Char → Bool
  | [] => leadsWith needle []
  | b :: bs => leadsWith needle (b :: bs) || occursIn needle bs

/-- Python `needle in hay` on strings. -/
def strContains (hay needle : String) : Bool :=
  occursIn needle.data hay.data

/-- Python `str.lower()` (character-wise ASCII lowering). -/
def lowerStr (s : String) : String :=
  String.mk (s.data.map Char.toLower)

/-- Python `str.strip()`: drop leading and trailing whitespace. -/
def stripStr (s : String) : String :=
  String.mk (((s.data.dropWhile Char.isWhitespace).reverse.dropWhile
    Char.isWhitespace).reverse)

/-- A regex word character `\w` (ASCII): letter, digit or underscore. -/
def isWordChar (c : Char) : Bool :=
  (('a' ≤ c && c ≤ 'z') || ('A' ≤ c && c ≤ 'Z') ||
   ('0' ≤ c && c ≤ '9') || c == '_')

/-- Maximal runs of word characters of a character list, in order.
`cur` is the current run accumulated in reverse. -/
def runsAux : List Char → List Char → List (List Char)
  | cur, [] => if cur.isEmpty then [] else [cur.reverse]
  | cur, c :: cs =>
    if isWordChar c then runsAux (c :: cur) cs
    else if cur.isEmpty then runsAux [] cs
    else cur.reverse :: runsAux [] cs

/-- `re.findall(r'\b\w{4,}\b', question.lower())`: the maximal word-character
runs of the lower-cased question that have length at least 4. -/
def tokenize (question : String) : List String :=
  ((runsAux [] (lowerStr question).data).filter
    (fun r => 4 ≤ r.length)).map String.mk

/-! ### Search engine (`search_knowledge_base`) -/

/-- `likeSuffix f text` is true iff `f` holds of some suffix of `text`, the
text itself included. Used for the `%` wildcard, which consumes any prefix. -/
def likeSuffix (f : List Char → Bool) : List Char → Bool
  | [] => f []
  | c :: cs => f (c :: cs) || likeSuffix f cs

/-- SQLite `LIKE` pattern matching (default, case-insensitive for ASCII):
`%` matches any character sequence, `_` matches exactly one character, and
any other pattern character matches itself up to ASCII case folding. -/
def likeMatch : List Char → List Char → Bool
  | [], text => text.isEmpty
  | p :: ps, text =>
    if p == '%' then likeSuffix (likeMatch ps) text
    else
      match text with
      | [] => false
      | c :: cs =>
        if p == '_' then likeMatch ps cs
        else p.toLower == c.toLower && likeMatch ps cs

/-- The SQLite condition `field LIKE ?` with the bound parameter
`f"%⁠tok%"`: LIKE matching of the pattern built by wrapping the token in
`%` wildcards. -/
def likeContains (tok field : String) : Bool :=
  likeMatch ('%' :: (tok.data ++ ['%'])) field.data

/-- Declarative counterpart of matching one token (a `%`-free LIKE pattern)
against a text segment: same length, and each token character matches the
corresponding text character — an underscore matches any character, every
other character matches case-insensitively. -/
def alignsWith (pat m : List Char) : Prop :=
  List.Forall₂ (fun p c => p = '_' ∨ p.toLower = c.toLower) pat m

/-- One `cursor.execute` of the search query: the rows of the table (in rowid
order) whose `keyword` or `answer` contains the token, case-insensitively. -/
def queryStore (kb : List Row) (tok : String) : List Row :=
  kb.filter (fun r => likeContains tok r.keyword || likeContains tok r.answer)

/-- The tokens for which the search loop runs a Store query, in order: one per
occurrence in `re.findall`, duplicates included. -/
def searchQueries (question : String) : List String :=
  tokenize question

/-- The `results` list after the query loop: matches of all queried tokens
concatenated in token order (`results.extend(cursor.fetchall())`). -/
def searchResults (kb : List Row) (question : String) : List Row :=
  ((searchQueries question).map (queryStore kb)).flatten

/-- The deduplication loop over `results`: keep a row iff its `url` is not in
`seen` yet, then add the `url` to `seen`. -/
def dedupByUrl : List Row → List String → List Row
  | [], _ => []
  | r :: rs, seen =>
    if r.url ∈ seen then dedupByUrl rs seen
    else r :: dedupByUrl rs (r.url :: seen)

/-- Modelled from the spec ("first occurrence of a URL wins, later duplicates
dropped"): keep each first occurrence and drop every later row carrying an
already-kept `url`. Declarative counterpart of `dedupByUrl`. -/
def keepFirstByUrl : List Row → List Row
  | [] => []
  | r :: rs => r :: keepFirstByUrl (rs.filter (fun s => s.url ≠ r.url))
termination_by l => l.length
decreasing_by
  simp only [List.length_cons]
  exact Nat.lt_succ_of_le (List.length_filter_le _ _)

/-- The canned no-match response text. -/
def noMatchAnswer : String :=
  "I couldn\x27t find a specific answer. Try rephrasing or ask about: course policies, grading, or technical requirements."

/-- `search_knowledge_base` on the happy path (queries succeed): tokenize,
query per token, concatenate, deduplicate by url, answer from the first
deduplicated row, links from the first three. -/
def search_knowledge_base (kb : List Row) (question : String) : AnswerResult :=
  let results := searchResults kb question
  if results = [] then
    { answer := noMatchAnswer, links := [] }
  else
    let uniq := dedupByUrl results []
    { answer := uniq.headI.answer
      links := (uniq.take 3).map (fun r => { url := r.url, text := r.snippet }) }

/-! ### Static responder and request handler (`answer_question`) -/

/-- The hardcoded response for the "model" key of `common_responses`. -/
def model_response : AnswerResult :=
  { answer := "You must use `gpt-3.5-turbo-0125`, even if the AI Proxy supports `gpt-4o-mini`."
    links := [{ url := "https://discourse.example.com/model"
                text := "Model usage guidelines" }] }

/-- The hardcoded response for the "docker" key of `common_responses`. -/
def docker_response : AnswerResult :=
  { answer := "While Docker is acceptable, we recommend using Podman for this course."
    links := [{ url := "https://example.com/containers"
                text := "Container Guidelines" }] }

/-- The `common_responses` dict in its insertion (= iteration) order. -/
def common_responses : List (String × AnswerResult) :=
  [("model", model_response), ("docker", docker_response)]

/-- The static-responder loop: the response of the first keyword of
`common_responses` contained in the lower-cased (already stripped) question,
if any. -/
def findStatic (question : String) : Option AnswerResult :=
  (common_responses.find? (fun p => strContains (lowerStr question) p.1)).map
    Prod.snd

/-- The body of the `POST /` handler after auth and JSON parsing: strip the
question, reject the empty question with a 400, otherwise static responder
first, search engine on a miss. -/
def handle_question (kb : List Row) (question : String) :
    Except HTTPError AnswerResult :=
  let q := stripStr question
  if q = "" then .error ⟨400, "Question is required", []⟩
  else
    match findStatic q with
    | some r => .ok r
    | none => .ok (search_knowledge_base kb q)

/-- The Store queries the handler issues for a question: none on the empty
question or on a static-responder hit, one per search token otherwise. -/
def handlerQueries (question : String) : List String :=
  let q := stripStr question
  if q = "" then []
  else
    match findStatic q with
    | some _ => []
    | none => searchQueries q

/-! ### Authentication and the full `POST /` endpoint -/

/-- Modelled from the spec: `security_scheme = HTTPBearer()` comes from the
web framework and its code is not part of the repository (the spec lists
token-authentication middleware among the external collaborators). Per the
spec, a missing bearer token is rejected like a mismatched one: 401 with a
`WWW-Authenticate: Bearer` header. A present credential is passed on. -/
def security_scheme (auth : Option String) : Except HTTPError String :=
  match auth with
  | none => .error ⟨401, "Invalid or missing API token",
      [("WWW-Authenticate", "Bearer")]⟩
  | some c => .ok c

/-- `verify_token`: reject a credential that differs from the configured
API token with a 401 carrying `WWW-Authenticate: Bearer`. -/
def verify_token (apiToken credentials : String) : Except HTTPError Bool :=
  if credentials ≠ apiToken then
    .error ⟨401, "Invalid or missing API token",
      [("WWW-Authenticate", "Bearer")]⟩
  else .ok true

/-- The `POST /` endpoint `answer_question`. `auth` is the bearer credential
of the request, if any; `body` is `none` for an unparsable JSON body (the
`request.json()` failure is caught by the generic handler as a 500) and
`some q?` for a JSON object whose `question` field is `q?` (`data.get`
defaults a missing field to `""`). Dependencies resolve before the body is
read, so auth is checked first. -/
def answer_question (apiToken : String) (kb : List Row) (auth : Option String)
    (body : Option (Option String)) : Except HTTPError AnswerResult :=
  match security_scheme auth with
  | .error e => .error e
  | .ok cred =>
    match verify_token apiToken cred with
    | .error e => .error e
    | .ok _ =>
      match body with
      | none => .error ⟨500, "Internal server error", []⟩
      | some qf => handle_question kb (qf.getD "")

/-! ### Store connection (`get_db_connection`) -/

/-- The retry loop of `get_db_connection`, with `max_retries = 3`.
`ok i` tells whether the connection attempt with index `i` succeeds; a
successful attempt returns its index at once, the failure of the last
remaining attempt raises the 500. The `remaining = 0` case is unreachable
from the entry point (the loop body always returns or raises on the last
attempt). -/
def connectGo (ok : Nat → Bool) (attempt : Nat) :
    Nat → Except HTTPError Nat
  | 0 => .error ⟨500, "Database connection failed", []⟩
  | 1 =>
    if ok attempt then .ok attempt
    else .error ⟨500, "Database connection failed", []⟩
  | n + 2 =>
    if ok attempt then .ok attempt
    else connectGo ok (attempt + 1) (n + 1)

/-- `get_db_connection`: run the retry loop from attempt 0 with 3 attempts
available. -/
def get_db_connection (ok : Nat → Bool) : Except HTTPError Nat :=
  connectGo ok 0 3

/-! ### Database initialization (`init_db`) -/

/-- The three rows seeded into an empty `knowledge_base` table. -/
def seed_rows : List Row :=
  [⟨"model", "Use gpt-3.5-turbo-0125", "https://example.com/model",
     "Model guidelines"⟩,
   ⟨"docker", "Podman is recommended", "https://example.com/docker",
     "Container info"⟩,
   ⟨"grading", "Scores appear as X/10", "https://example.com/grading",
     "Grading policy"⟩]

/-- The try-block of `init_db` without its except clause. `tbl` is the table
before the call (`none` when it does not exist yet); `failStep` injects a
failure at one numbered step, mirroring the order of the Python statements:
0 = `sqlite3.connect`, 1 = `CREATE TABLE`, 2 = `SELECT COUNT`, 3 = the seed
`executemany`/`commit` (run only when the table is empty), 4 = `conn.close`.
On success it returns the table contents after the call. -/
def init_db_try (tbl : Option (List Row)) (failStep : Option Nat) :
    Except String (List Row) :=
  if failStep = some 0 then .error "connect failed"
  else if failStep = some 1 then .error "create table failed"
  else
    let t := tbl.getD []
    if failStep = some 2 then .error "count failed"
    else if t = [] then
      if failStep = some 3 then .error "insert failed"
      else if failStep = some 4 then .error "close failed"
      else .ok seed_rows
    else
      if failStep = some 4 then .error "close failed"
      else .ok t

/-- `init_db`: the try-block wrapped in `except Exception: logger.error(...)`.
Any failure is swallowed (the table state is then unknown, `none`); the
function itself always returns normally, which the codomain records by
never producing `Except.error`. -/
def init_db (tbl : Option (List Row)) (failStep : Option Nat) :
    Except String (Option (List Row)) :=
  match init_db_try tbl failStep with
  | .ok t => .ok (some t)
  | .error _ => .ok none

/-- The `startup` event handler: it just calls `init_db`. -/
def startup_event (tbl : Option (List Row)) (failStep : Option Nat) :
    Except String (Option (List Row)) :=
  init_db tbl failStep

/-! ### Connection lifetime of a search (`search_run`) -/

/-- One run of `search_knowledge_base` with its connection lifetime made
explicit. `failAt = some i` makes the `cursor.execute` for the query with
index `i` raise, if that query is reached. The try-block closes the
connection only after the query loop; the except clause re-raises a 500
without closing it, so a failing query leaves the connection open. The
second component records whether the connection opened by the search has
been closed when the function returns or raises. -/
def search_run (kb : List Row) (question : String) (failAt : Option Nat) :
    Except HTTPError AnswerResult × Bool :=
  match failAt with
  | some i =>
    if i < (searchQueries question).length then
      (.error ⟨500, "Error searching knowledge base", []⟩, false)
    else
      (.ok (search_knowledge_base kb question), true)
  | none => (.ok (search_knowledge_base kb question), true)

/-! ### Helper lemmas -/

lemma leadsWith_iff (n h : List Char) :
    leadsWith n h = true ↔ ∃ t, h = n ++ t := by
  induction n generalizing h with
  | nil => simp [leadsWith]
  | cons a as ih =>
    cases h with
    | nil => simp [leadsWith]
    | cons b bs =>
      simp only [leadsWith, Bool.and_eq_true, beq_iff_eq, ih]
      constructor
      · rintro ⟨rfl, t, rfl⟩
        exact ⟨t, rfl⟩
      · rintro ⟨t, ht⟩
        simp only [List.cons_append, List.cons_eq_cons] at ht
        exact ⟨ht.1.symm, t, ht.2⟩

lemma occursIn_iff (n h : List Char) :
    occursIn n h = true ↔ ∃ p t, h = p ++ n ++ t := by
  induction h with
  | nil =>
    simp only [occursIn, leadsWith_iff]
    constructor
    · rintro ⟨t, ht⟩
      exact ⟨[], t, by simpa using ht⟩
    · rintro ⟨p, t, ht⟩
      exact ⟨t, by cases p <;> simp_all⟩
  | cons b bs ih =>
    simp only [occursIn, Bool.or_eq_true, leadsWith_iff, ih]
    constructor
    · rintro (⟨t, ht⟩ | ⟨p, t, ht⟩)
      · exact ⟨[], t, by simpa using ht⟩
      · exact ⟨b :: p, t, by simp [ht]⟩
    · rintro ⟨p, t, ht⟩
      cases p with
      | nil => exact Or.inl ⟨t, by simpa using ht⟩
      | cons c p =>
        simp only [List.cons_append, List.cons_eq_cons] at ht
        exact Or.inr ⟨p, t, ht.2⟩

lemma likeMatch_percent_cons (ps text : List Char) :
    likeMatch ('%' :: ps) text = likeSuffix (likeMatch ps) text := rfl

lemma likeMatch_cons_nil (p : Char) (ps : List Char) (hp : p ≠ '%') :
    likeMatch (p :: ps) [] = false := by
  rw [likeMatch]
  simp [hp]

lemma likeMatch_underscore (ps : List Char) (c : Char) (cs : List Char) :
    likeMatch ('_' :: ps) (c :: cs) = likeMatch ps cs := rfl

lemma likeMatch_lit (p c : Char) (ps cs : List Char)
    (h1 : p ≠ '%') (h2 : p ≠ '_') :
    likeMatch (p :: ps) (c :: cs) =
      (p.toLower == c.toLower && likeMatch ps cs) := by
  rw [likeMatch]
  simp [h1, h2]

lemma likeSuffix_iff (f : List Char → Bool) (text : List Char) :
    likeSuffix f text = true ↔ ∃ p t, text = p ++ t ∧ f t = true := by
  induction text with
  | nil =>
    rw [likeSuffix]
    constructor
    · intro h
      exact ⟨[], [], rfl, h⟩
    · rintro ⟨p, t, hpt, h⟩
      obtain ⟨rfl, rfl⟩ := List.append_eq_nil.mp hpt.symm
      exact h
  | cons c cs ih =>
    rw [likeSuffix]
    simp only [Bool.or_eq_true, ih]
    constructor
    · rintro (h | ⟨p, t, rfl, h⟩)
      · exact ⟨[], c :: cs, rfl, h⟩
      · exact ⟨c :: p, t, rfl, h⟩
    · rintro ⟨p, t, hpt, h⟩
      cases p with
      | nil => exact Or.inl (by rw [← List.nil_append t, ← hpt] at h; exact h)
      | cons d p =>
        simp only [List.cons_append, List.cons_eq_cons] at hpt
        exact Or.inr ⟨p, t, hpt.2, h⟩

lemma likeMatch_append_percent (pat : List Char) :
    ∀ text : List Char, '%' ∉ pat →
      (likeMatch (pat ++ ['%']) text = true ↔
        ∃ m u, text = m ++ u ∧ alignsWith pat m) := by
  induction pat with
  | nil =>
    intro text _
    rw [List.nil_append, likeMatch_percent_cons, likeSuffix_iff]
    constructor
    · rintro ⟨p, t, rfl, _⟩
      exact ⟨[], p ++ t, rfl, List.Forall₂.nil⟩
    · rintro ⟨m, u, rfl, hm⟩
      cases hm
      exact ⟨u, [], by simp, rfl⟩
  | cons p ps ih =>
    intro text hp
    have hp' : '%' ∉ ps := fun h => hp (List.mem_cons_of_mem _ h)
    have hpne : p ≠ '%' := fun h => hp (h ▸ List.mem_cons_self _ _)
    cases text with
    | nil =>
      rw [List.cons_append, likeMatch_cons_nil p _ hpne]
      constructor
      · intro h
        exact absurd h (by simp)
      · rintro ⟨m, u, hmu, hm⟩
        obtain ⟨rfl, rfl⟩ := List.append_eq_nil.mp hmu.symm
        cases hm
    | cons c cs =>
      by_cases hund : p = '_'
      · subst hund
        rw [List.cons_append, likeMatch_underscore, ih cs hp']
        constructor
        · rintro ⟨m, u, rfl, hm⟩
          exact ⟨c :: m, u, rfl, List.Forall₂.cons (Or.inl rfl) hm⟩
        · rintro ⟨m, u, hmu, hm⟩
          cases hm with
          | cons hhead htail =>
            simp only [List.cons_append, List.cons_eq_cons] at hmu
            exact ⟨_, u, hmu.2, htail⟩
      · rw [List.cons_append, likeMatch_lit p c _ _ hpne hund]
        simp only [Bool.and_eq_true, beq_iff_eq, ih cs hp']
        constructor
        · rintro ⟨hlt, m, u, rfl, hm⟩
          exact ⟨c :: m, u, rfl, List.Forall₂.cons (Or.inr hlt) hm⟩
        · rintro ⟨m, u, hmu, hm⟩
          cases hm with
          | cons hhead htail =>
            simp only [List.cons_append, List.cons_eq_cons] at hmu
            obtain ⟨rfl, hcs⟩ := hmu
            rcases hhead with h' | h'
            · exact absurd h' hund
            · exact ⟨h', _, u, hcs, htail⟩

lemma likeContains_iff (tok : String) (hp : '%' ∉ tok.data)
    (field : String) :
    likeContains tok field = true ↔
      ∃ p m t, field.data = p ++ m ++ t ∧ alignsWith tok.data m := by
  rw [likeContains, likeMatch_percent_cons, likeSuffix_iff]
  constructor
  · rintro ⟨p, t, hft, h⟩
    obtain ⟨m, u, rfl, hm⟩ := (likeMatch_append_percent tok.data t hp).mp h
    exact ⟨p, m, u, by rw [hft, List.append_assoc], hm⟩
  · rintro ⟨p, m, t, hft, hm⟩
    exact ⟨p, m ++ t, by rw [hft, List.append_assoc],
      (likeMatch_append_percent tok.data (m ++ t) hp).mpr ⟨m, t, rfl, hm⟩⟩

lemma runsAux_wordChar (l : List Char) :
    ∀ cur : List Char, (∀ c ∈ cur, isWordChar c = true) →
      ∀ run ∈ runsAux cur l, ∀ c ∈ run, isWordChar c = true := by
  induction l with
  | nil =>
    intro cur hcur run hrun c hc
    rw [runsAux] at hrun
    split at hrun
    · simp at hrun
    · simp only [List.mem_singleton] at hrun
      subst hrun
      exact hcur c (List.mem_reverse.mp hc)
  | cons a l ih =>
    intro cur hcur run hrun c hc
    rw [runsAux] at hrun
    by_cases ha : isWordChar a = true
    · rw [if_pos ha] at hrun
      refine ih (a :: cur) ?_ run hrun c hc
      intro d hd
      rcases List.mem_cons.mp hd with rfl | hd
      · exact ha
      · exact hcur d hd
    · rw [if_neg ha] at hrun
      split at hrun
      · exact ih [] (by simp) run hrun c hc
      · rcases List.mem_cons.mp hrun with rfl | hrun
        · exact hcur c (List.mem_reverse.mp hc)
        · exact ih [] (by simp) run hrun c hc

lemma tokenize_wordChar (s tok : String) (h : tok ∈ tokenize s) :
    ∀ c ∈ tok.data, isWordChar c = true := by
  rw [tokenize] at h
  obtain ⟨run, hrun, rfl⟩ := List.mem_map.mp h
  exact runsAux_wordChar (lowerStr s).data [] (by simp) run
    (List.mem_filter.mp hrun).1

lemma tokenize_no_percent (s tok : String) (h : tok ∈ tokenize s) :
    '%' ∉ tok.data :=
  fun hc => absurd (tokenize_wordChar s tok h '%' hc) (by decide)

lemma keepFirstByUrl_nil : keepFirstByUrl [] = [] := by
  rw [keepFirstByUrl.eq_def]

lemma keepFirstByUrl_cons (r : Row) (rs : List Row) :
    keepFirstByUrl (r :: rs) =
      r :: keepFirstByUrl (rs.filter (fun s => s.url ≠ r.url)) := by
  rw [keepFirstByUrl.eq_def]

lemma dedupByUrl_eq_keepFirst (rows : List Row) (seen : List String) :
    dedupByUrl rows seen =
      keepFirstByUrl (rows.filter (fun r => decide (r.url ∉ seen))) := by
  induction rows generalizing seen with
  | nil => simp [dedupByUrl, keepFirstByUrl_nil]
  | cons r rs ih =>
    by_cases h : r.url ∈ seen
    · rw [dedupByUrl, if_pos h, List.filter_cons,
        if_neg (by simpa using h), ih]
    · rw [dedupByUrl, if_neg h, List.filter_cons,
        if_pos (by simpa using h), keepFirstByUrl_cons, ih (r.url :: seen)]
      rw [List.filter_filter]
      congr 1
      congr 1
      apply List.filter_congr
      intro s _
      simp [List.mem_cons, not_or, and_comm]

/-! ### Claim theorems -/

/-- C2: whenever the search produces at least one matching row, the returned
answer is the answer field of the first deduplicated row and the links are
the url/snippet pairs of at most the first 3 deduplicated rows; the link
list never has more than 3 entries. -/
theorem search_result_answer_and_links (kb : List Row) (question : String) :
    (search_knowledge_base kb question).links.length ≤ 3 ∧
    (searchResults kb question ≠ [] →
      search_knowledge_base kb question =
        { answer := (dedupByUrl (searchResults kb question) []).headI.answer
          links := ((dedupByUrl (searchResults kb question) []).take 3).map
            (fun r => { url := r.url, text := r.snippet }) }) := by
  constructor
  · by_cases h : searchResults kb question = []
    · simp [search_knowledge_base, h]
    · have hlen : (search_knowledge_base kb question).links.length =
          min 3 (dedupByUrl (searchResults kb question) []).length := by
        simp [search_knowledge_base, h]
      omega
  · intro h
    simp [search_knowledge_base, h]

/-- C3: deduplication keeps, for each url, exactly the first row carrying it,
in match order: the imperative seen-set loop agrees with the declarative
first-occurrence-wins function. -/
theorem dedup_first_url_occurrence_wins (rows : List Row) :
    dedupByUrl rows [] = keepFirstByUrl rows := by
  rw [dedupByUrl_eq_keepFirst rows []]
  congr 1
  simp

/-- The "model" row of the seed data, used by the C5 counterexample. -/
def model_row : Row :=
  ⟨"model", "Use gpt-3.5-turbo-0125", "https://example.com/model",
    "Model guidelines"⟩

/-- C5 counterexample: the token mod_l — underscore is a word character, so
re.findall can extract it from a question — makes the Store query return
the seeded model row, because the underscore of the LIKE pattern matches
the letter e; yet the token does not occur as a substring of the row
keyword or of the row answer, even with both sides lower-cased. -/
theorem underscore_defeats_substring_counterexample :
    "mod_l" ∈ searchQueries (stripStr "what is mod_l") ∧
    model_row ∈ queryStore seed_rows "mod_l" ∧
    ¬ ((∃ p t, (lowerStr model_row.keyword).data =
          p ++ (lowerStr "mod_l").data ++ t) ∨
       (∃ p t, (lowerStr model_row.answer).data =
          p ++ (lowerStr "mod_l").data ++ t)) := by
  refine ⟨by decide, by decide, ?_⟩
  rintro (⟨p, t, hpt⟩ | ⟨p, t, hpt⟩)
  · exact absurd ((occursIn_iff (lowerStr "mod_l").data
      (lowerStr model_row.keyword).data).mpr ⟨p, t, hpt⟩) (by decide)
  · exact absurd ((occursIn_iff (lowerStr "mod_l").data
      (lowerStr model_row.answer).data).mpr ⟨p, t, hpt⟩) (by decide)

/-- C5 amended: for every token the search loop extracts from the question,
a query returns exactly the rows of the table whose keyword field or answer
field is matched by the LIKE pattern built from the token: some contiguous
segment of the field aligns with the token character by character, an
underscore of the token matching any single character and every other
character matching case-insensitively. -/
theorem query_matches_rows_by_like_pattern (kb : List Row)
    (question tok : String) (r : Row)
    (htok : tok ∈ searchQueries (stripStr question)) :
    r ∈ queryStore kb tok ↔ r ∈ kb ∧
      ((∃ p m t, r.keyword.data = p ++ m ++ t ∧ alignsWith tok.data m) ∨
       (∃ p m t, r.answer.data = p ++ m ++ t ∧ alignsWith tok.data m)) := by
  have hp : '%' ∉ tok.data := tokenize_no_percent _ _ htok
  simp [queryStore, List.mem_filter, likeContains_iff tok hp]

/-- C6 counterexample: the claim says a repeated token does not cause
additional queries, but the question "abcd abcd" has one distinct token and
the search loop issues two Store queries for it. -/
theorem repeated_token_requeries_counterexample :
    ¬ ((searchQueries "abcd abcd").length =
       ((searchQueries "abcd abcd").dedup).length) := by
  decide

/-- C6 amended: the Search Engine queries the Store once per token
occurrence of the question (a repeated token is queried again), and the
result list is the concatenation of the per-token matches in token order,
so its length is the sum of the per-query match counts. -/
theorem queries_once_per_token_occurrence (kb : List Row) (question : String) :
    searchQueries question = tokenize question ∧
    searchResults kb question =
      ((searchQueries question).map (queryStore kb)).flatten ∧
    (searchResults kb question).length =
      ((searchQueries question).map (fun t => (queryStore kb t).length)).sum := by
  refine ⟨rfl, rfl, ?_⟩
  rw [searchResults, List.length_flatten, List.map_map]
  rfl

/-- C7 counterexample: a run of the search in which the first query raises
ends with the connection still open, because the except clause re-raises
without closing it. -/
theorem connection_left_open_on_error_counterexample :
    (search_run seed_rows "abcd" (some 0)).2 = false := rfl

/-- C7 amended: the connection opened by a search has been closed at its end
exactly when the search succeeded; on the error path (a query raised) the
500 is surfaced with the connection left open. -/
theorem connection_closed_iff_search_succeeds (kb : List Row)
    (question : String) (failAt : Option Nat) :
    (search_run kb question failAt).2 = true ↔
      ∃ r, (search_run kb question failAt).1 = .ok r := by
  cases failAt with
  | none => simp [search_run]
  | some i =>
    by_cases h : i < (searchQueries question).length <;> simp [search_run, h]

/-- C1: a non-empty question whose lower-cased text contains a static
keyword gets that keyword table entry as its answer — the first keyword in
iteration order wins — and the knowledge base is never consulted: the
result is the same for every knowledge base and no Store query is issued. -/
theorem static_keyword_short_circuits_search (kb kb2 : List Row)
    (question kw : String)
    (hne : stripStr question ≠ "")
    (hkw : kw = "model" ∨ kw = "docker")
    (hc : strContains (lowerStr (stripStr question)) kw = true) :
    (strContains (lowerStr (stripStr question)) "model" = true →
      handle_question kb question = .ok model_response) ∧
    (strContains (lowerStr (stripStr question)) "model" = false →
      handle_question kb question = .ok docker_response) ∧
    handle_question kb question = handle_question kb2 question ∧
    handlerQueries question = [] := by
  have hstatic : findStatic (stripStr question) =
      some (if strContains (lowerStr (stripStr question)) "model" = true
        then model_response else docker_response) := by
    by_cases hm : strContains (lowerStr (stripStr question)) "model" = true
    · simp [findStatic, common_responses, List.find?, hm]
    · have hd : strContains (lowerStr (stripStr question)) "docker" = true := by
        rcases hkw with rfl | rfl
        · exact absurd hc hm
        · exact hc
      simp [findStatic, common_responses, List.find?, hm, hd]
  refine ⟨?_, ?_, ?_, ?_⟩
  · intro hm
    simp [handle_question, hne, hstatic, hm]
  · intro hm
    simp [handle_question, hne, hstatic, hm]
  · simp [handle_question, hne, hstatic]
  · simp [handlerQueries, hne, hstatic]

/-- C4: a non-empty question without any word token of length at least 4 and
without a static keyword yields the canned no-match response with an empty
link list, and the handler issues zero Store queries. -/
theorem no_long_tokens_yields_fallback (kb : List Row) (question : String)
    (hne : stripStr question ≠ "")
    (ht : tokenize (stripStr question) = [])
    (hm : strContains (lowerStr (stripStr question)) "model" = false)
    (hd : strContains (lowerStr (stripStr question)) "docker" = false) :
    handle_question kb question = .ok { answer := noMatchAnswer, links := [] } ∧
    handlerQueries question = [] := by
  have hstatic : findStatic (stripStr question) = none := by
    simp [findStatic, common_responses, List.find?, hm, hd]
  have hres : searchResults kb (stripStr question) = [] := by
    rw [searchResults, searchQueries, ht]
    rfl
  constructor
  · simp [handle_question, hne, hstatic, search_knowledge_base, hres]
  · simp [handlerQueries, hne, hstatic, searchQueries, ht]

/-- C8: a request whose bearer credential is missing or differs from the
configured token is rejected with a 401 carrying a WWW-Authenticate Bearer
header, whatever the request body holds. -/
theorem bad_bearer_token_rejected_401 (apiToken : String) (kb : List Row)
    (auth : Option String) (body : Option (Option String))
    (h : auth = none ∨ ∃ c, auth = some c ∧ c ≠ apiToken) :
    answer_question apiToken kb auth body =
      .error ⟨401, "Invalid or missing API token",
        [("WWW-Authenticate", "Bearer")]⟩ := by
  rcases h with rfl | ⟨c, rfl, hc⟩
  · rfl
  · simp [answer_question, security_scheme, verify_token, hc]

lemma get_db_connection_unfold (ok : Nat → Bool) :
    get_db_connection ok =
      if ok 0 then .ok 0
      else if ok 1 then .ok 1
      else if ok 2 then .ok 2
      else .error ⟨500, "Database connection failed", []⟩ := rfl

/-- C9: opening a connection is attempted at most 3 times: the first
successful attempt returns at once (no earlier attempt succeeded before it),
and only when all 3 attempts fail does the function raise the 500
storage-unavailable error. -/
theorem connect_retries_three_times (ok : Nat → Bool) :
    ((∀ i, i < 3 → ok i = false) →
      get_db_connection ok = .error ⟨500, "Database connection failed", []⟩) ∧
    (∀ i, i < 3 → ok i = true → (∀ j, j < i → ok j = false) →
      get_db_connection ok = .ok i) := by
  constructor
  · intro h
    rw [get_db_connection_unfold, h 0 (by omega), h 1 (by omega),
      h 2 (by omega)]
    simp
  · intro i hi hok hprev
    interval_cases i
    · rw [get_db_connection_unfold, hok]
      simp
    · rw [get_db_connection_unfold, hprev 0 (by omega), hok]
      simp
    · rw [get_db_connection_unfold, hprev 0 (by omega), hprev 1 (by omega),
        hok]
      simp

/-- C10: database initialization swallows every failure of its try-block:
whatever the prior table state and whichever internal step fails, the
startup path returns normally (never an error), even though the try-block
itself can fail, leaving the store unusable or unseeded. -/
theorem init_db_never_raises :
    (∀ tbl failStep, ∃ r, startup_event tbl failStep = Except.ok r) ∧
    init_db_try none (some 0) = .error "connect failed" ∧
    init_db none (some 0) = .ok none := by
  refine ⟨?_, rfl, rfl⟩
  intro tbl failStep
  cases h : init_db_try tbl failStep <;> simp [startup_event, init_db, h]

/-! ### Witnesses -/

/-- The "grading" row of the seed data, used to instantiate witnesses. -/
def grading_row : Row :=
  ⟨"grading", "Scores appear as X/10", "https://example.com/grading",
    "Grading policy"⟩

theorem static_keyword_short_circuits_search_witness :
    stripStr "What model should I use?" ≠ "" ∧
    handle_question seed_rows "What model should I use?" =
      .ok model_response ∧
    handlerQueries "What model should I use?" = [] := by
  have h := static_keyword_short_circuits_search seed_rows []
    "What model should I use?" "model" (by decide) (Or.inl rfl) (by decide)
  exact ⟨by decide, h.1 (by decide), h.2.2.2⟩

theorem search_result_answer_and_links_witness :
    searchResults seed_rows "tell me about grading" ≠ [] ∧
    search_knowledge_base seed_rows "tell me about grading" =
      { answer := (dedupByUrl
          (searchResults seed_rows "tell me about grading") []).headI.answer
        links := ((dedupByUrl
          (searchResults seed_rows "tell me about grading") []).take 3).map
          (fun r => { url := r.url, text := r.snippet }) } := by
  have h := search_result_answer_and_links seed_rows "tell me about grading"
  exact ⟨by decide, h.2 (by decide)⟩

theorem no_long_tokens_yields_fallback_witness :
    handle_question seed_rows "xyz" =
      .ok { answer := noMatchAnswer, links := [] } ∧
    handlerQueries "xyz" = [] :=
  no_long_tokens_yields_fallback seed_rows "xyz" (by decide) (by decide)
    (by decide) (by decide)

theorem query_matches_rows_by_like_pattern_witness :
    grading_row ∈ queryStore seed_rows "grading" ↔
      grading_row ∈ seed_rows ∧
      ((∃ p m t, grading_row.keyword.data = p ++ m ++ t ∧
          alignsWith "grading".data m) ∨
       (∃ p m t, grading_row.answer.data = p ++ m ++ t ∧
          alignsWith "grading".data m)) :=
  query_matches_rows_by_like_pattern seed_rows "tell me about grading"
    "grading" grading_row (by decide)

theorem bad_bearer_token_rejected_401_witness :
    answer_question "secret" seed_rows none
        (some (some "What model should I use?")) =
      .error ⟨401, "Invalid or missing API token",
        [("WWW-Authenticate", "Bearer")]⟩ ∧
    answer_question "secret" seed_rows (some "wrong") none =
      .error ⟨401, "Invalid or missing API token",
        [("WWW-Authenticate", "Bearer")]⟩ :=
  ⟨bad_bearer_token_rejected_401 "secret" seed_rows none
      (some (some "What model should I use?")) (Or.inl rfl),
   bad_bearer_token_rejected_401 "secret" seed_rows (some "wrong") none
      (Or.inr ⟨"wrong", rfl, by decide⟩)⟩

theorem connect_retries_three_times_witness :
    get_db_connection (fun _ => false) =
      .error ⟨500, "Database connection failed", []⟩ ∧
    get_db_connection (fun i => decide (i = 1)) = .ok 1 :=
  ⟨(connect_retries_three_times (fun _ => false)).1 (fun _ _ => rfl),
   (connect_retries_three_times (fun i => decide (i = 1))).2 1 (by omega)
      (by decide)
      (fun j hj => by
        simp only [decide_eq_false_iff_not]
        omega)⟩

end VirtualTAA
